import Mathlib

/-
Formal model of the `ai-agent` NestJS service.

The repository glues three external services (Google embeddings, a Pinecone
vector index, and a Gemini chat model) behind three HTTP endpoints
(`POST /sync`, `POST /chat`, `GET /summarize`) implemented in
`src/app.controller.ts` and `src/app.service.ts`.

Modelling conventions:
* Calls to external services are oracles supplied through environment
  records (`SyncEnv`, `ChatEnv`, `SummarizeEnv`): the raw search results,
  the model output, and a success flag plus error message for every call
  that can throw.
* Every externally visible side effect (writing the temp file, embedding,
  upserting a batch, sleeping, unlinking, invoking the chat model,
  reconstructing the model) is recorded in an event trace.
* Similarity scores are rationals; JavaScript string primitives
  (`includes`, `toLowerCase`, `trim`, `endsWith`, the two `replace`
  regexes of the summarization parser) are re-implemented as executable
  functions on `List Char`.
* `JSON.parse` is an oracle `String → Option J`: `none` models a thrown
  `SyntaxError`.
-/

namespace AiAgent

/-- Does `needle` occur as a prefix of `hay`? (list-level building block). -/
def startsWithList : List Char → List Char → Bool
  | _, [] => true
  | [], _ :: _ => false
  | a :: hay, b :: needle => a = b && startsWithList hay needle

/-- Does `needle` occur as a contiguous substring of `hay`? -/
def containsList : List Char → List Char → Bool
  | [], needle => needle.isEmpty
  | c :: rest, needle => startsWithList (c :: rest) needle || containsList rest needle

/-- JS `String.prototype.includes`. -/
def jsIncludes (s needle : String) : Bool := containsList s.data needle.data

/-- JS `String.prototype.toLowerCase` (character-wise, executable). -/
def jsToLower (s : String) : String := String.mk (s.data.map Char.toLower)

/-- JS `String.prototype.trim` (drop whitespace from both ends, executable). -/
def jsTrim (s : String) : String :=
  String.mk (((s.data.dropWhile Char.isWhitespace).reverse.dropWhile Char.isWhitespace).reverse)

/-- JS `String.prototype.endsWith`. -/
def jsEndsWith (s needle : String) : Bool := startsWithList s.data.reverse needle.data.reverse

/-- One pass of the global replace `/x60x60x60json\s*|\s*x60x60x60/g` (x60 = backtick)
from `enhancedJsonParser`: at each position the first alternative
(fence opener plus trailing whitespace) is tried, then the second
(leading whitespace plus fence); on failure the scanner advances one
character. The fuel argument bounds the recursion by the input length. -/
def stripFencesGo : Nat → List Char → List Char
  | 0, l => l
  | _ + 1, [] => []
  | fuel + 1, c :: rest =>
    if startsWithList (c :: rest) "```json".data then
      stripFencesGo fuel (((c :: rest).drop 7).dropWhile Char.isWhitespace)
    else
      let w := (c :: rest).dropWhile Char.isWhitespace
      if startsWithList w "```".data then
        stripFencesGo fuel (w.drop 3)
      else
        c :: stripFencesGo fuel rest

/-- `jsonStr.replace` of all code fences, first rewrite of `enhancedJsonParser`. -/
def stripFences (s : String) : String := String.mk (stripFencesGo s.data.length s.data)

/-- Second rewrite of `enhancedJsonParser`: the anchored regex keeps the span
from the first opening brace to the last closing brace when both exist in
that order, and otherwise leaves the string unchanged. -/
def extractBraces (s : String) : String :=
  match s.data.findIdx? (fun c => c = '{'), s.data.reverse.findIdx? (fun c => c = '}') with
  | some i, some jr =>
    let j := s.data.length - 1 - jr
    if i < j then String.mk ((s.data.drop i).take (j + 1 - i)) else s
  | _, _ => s

/-- A LangChain document as produced by `CSVLoader`: one CSV row. -/
structure Doc where
  pageContent : String
deriving DecidableEq, Repr

/-- `AppService.performSimilaritySearch`, modelled from the point where the
vector store has returned its raw scored matches: keep the matches whose
score passes the relevance threshold 0.5. -/
def performSimilaritySearch (rawResults : List (Doc × ℚ)) : List (Doc × ℚ) :=
  rawResults.filter (fun r => decide ((0.5 : ℚ) ≤ r.2))

/-- `AppService.getTransactionData`, modelled from the point where the vector
store has returned its raw scored matches for the fixed broad query: keep the
matches whose score is at least 0.6. -/
def getTransactionData (rawResults : List (Doc × ℚ)) : List (Doc × ℚ) :=
  rawResults.filter (fun r => decide ((0.6 : ℚ) ≤ r.2))

/-- Template returned by `getSystemPrompt` for maximum/highest/largest queries. -/
def maxPromptTemplate : String :=
  "You are a financial data analyst. From the provided transaction records, identify and present the highest value transactions. \n    Format your response as: \"Amount: $X.XX | Type: [transaction_type] | Additional details if relevant\"\n    Focus on the transactions with the highest amounts and provide clear, actionable insights."

/-- Template returned by `getSystemPrompt` for minimum/lowest/smallest queries. -/
def minPromptTemplate : String :=
  "You are a financial data analyst. From the provided transaction records, identify and present the lowest value transactions.\n    Format your response clearly with amount and transaction type."

/-- Template returned by `getSystemPrompt` for summary/overview queries. -/
def summaryPromptTemplate : String :=
  "You are a financial data analyst. Provide a comprehensive summary of the transaction data.\n    Include key metrics like total amounts, transaction types, and notable patterns."

/-- Template returned by `getSystemPrompt` for pattern/trend queries. -/
def trendPromptTemplate : String :=
  "You are a financial data analyst. Analyze the transaction data for patterns and trends.\n    Highlight recurring transaction types, amounts, and any notable behaviors."

/-- Template returned by `getSystemPrompt` when no keyword matches. -/
def defaultPromptTemplate : String :=
  "You are a helpful financial data analyst. Analyze the provided transaction records and answer the user's query clearly and concisely.\n  Present the information in an organized format with amounts, transaction types, and relevant details."

/-- `AppService.getSystemPrompt`: keyword dispatch on the lowercased query. -/
def getSystemPrompt (query : String) : String :=
  let lowerQuery := jsToLower query
  if jsIncludes lowerQuery "maximum" || jsIncludes lowerQuery "highest" ||
      jsIncludes lowerQuery "largest" then
    maxPromptTemplate
  else if jsIncludes lowerQuery "minimum" || jsIncludes lowerQuery "lowest" ||
      jsIncludes lowerQuery "smallest" then
    minPromptTemplate
  else if jsIncludes lowerQuery "summary" || jsIncludes lowerQuery "overview" then
    summaryPromptTemplate
  else if jsIncludes lowerQuery "pattern" || jsIncludes lowerQuery "trend" then
    trendPromptTemplate
  else
    defaultPromptTemplate

/-- The `keyInsights` block of `generateFallbackAnalysis`. -/
structure KeyInsights where
  highestExpenseMonth : String
  lowestExpenseMonth : String
  averageMonthlySpending : ℚ
  mostFrequentTransactionType : String
  largestSingleTransaction : ℚ
  financialHealthScore : ℚ
  recommendations : List String
deriving DecidableEq, Repr

/-- The static object built by `AppService.generateFallbackAnalysis`
(nested `description` strings flattened into named fields). -/
structure FallbackAnalysis where
  totalTransactionsCount : Nat
  totalTransactionsDescription : String
  totalInflow : ℚ
  totalOutflow : ℚ
  netAmount : ℚ
  totalAmountDescription : String
  banks : List String
  bankwiseDescription : String
  contacts : List String
  contactsDescription : String
  accounts : List String
  accountsDescription : String
  months : List String
  monthlyDescription : String
  types : List String
  typesDescription : String
  keyInsights : KeyInsights
  executiveSummary : String
  processingError : Bool
  rawResponse : String
deriving DecidableEq, Repr

/-- `AppService.generateFallbackAnalysis`. -/
def generateFallbackAnalysis (transactionData : List (Doc × ℚ)) (rawOutput : String) :
    FallbackAnalysis where
  totalTransactionsCount := transactionData.length
  totalTransactionsDescription := "Total number of transactions processed in the selected period"
  totalInflow := 0
  totalOutflow := 0
  netAmount := 0
  totalAmountDescription := "Unable to calculate due to parsing error - please check data format"
  banks := []
  bankwiseDescription := "Bank analysis unavailable due to processing error"
  contacts := []
  contactsDescription := "Contact analysis unavailable due to processing error"
  accounts := []
  accountsDescription := "Account analysis unavailable due to processing error"
  months := []
  monthlyDescription := "Monthly trend analysis unavailable due to processing error"
  types := []
  typesDescription := "Transaction type analysis unavailable due to processing error"
  keyInsights :=
    { highestExpenseMonth := "Unknown"
      lowestExpenseMonth := "Unknown"
      averageMonthlySpending := 0
      mostFrequentTransactionType := "Unknown"
      largestSingleTransaction := 0
      financialHealthScore := 50
      recommendations :=
        ["Please ensure transaction data is properly formatted",
         "Check if amount and date fields are clearly specified",
         "Verify bank and account information is included in records"] }
  executiveSummary :=
    "Analysis of " ++ toString transactionData.length ++
      " transaction records encountered processing errors. Please review data format and try again."
  processingError := true
  rawResponse := rawOutput

/-- Result of the summarization JSON-repair step: either the parsed model
output or the static fallback object. -/
inductive AnalysisResult (J : Type)
  | parsed (value : J)
  | fallback (analysis : FallbackAnalysis)
deriving DecidableEq

/-- The `enhancedJsonParser` runnable from `generateFinancialAnalysis`:
trim the model output, strip code fences, extract the outermost braces,
then hand the string to `JSON.parse` (the `parseJson` oracle); a parse
failure is caught and turned into the fallback analysis. The
missing-section check only logs warnings and does not alter the value. -/
def enhancedJsonParser {J : Type} (parseJson : String → Option J)
    (transactionData : List (Doc × ℚ)) (content : String) : AnalysisResult J :=
  let jsonStr := extractBraces (stripFences (jsTrim content))
  match parseJson jsonStr with
  | some value => AnalysisResult.parsed value
  | none => AnalysisResult.fallback (generateFallbackAnalysis transactionData content)

/-! ## `AppController.sync` -/

/-- Externally visible effects of one `sync` request. -/
inductive Event
  | writeTempFile
  | embedQuery (text : String)
  | addDocuments (batch : List Doc)
  | sleep (ms : Nat)
  | unlinkTempFile
deriving DecidableEq, Repr

/-- The uploaded multipart file (the buffer itself only matters through the
`loadResult` oracle). -/
structure SyncFile where
  mimetype : String
  originalname : String
deriving DecidableEq, Repr

/-- Oracles for the external calls made during `sync`: the temp-file write,
`CSVLoader.load`, the dimension-test `embedQuery`, and each per-batch
`vectorStore.addDocuments`. `false` / `Except.error` model a thrown error
whose `.message` is the paired string. -/
structure SyncEnv where
  writeOk : Bool
  writeErrMsg : String
  loadResult : Except String (List Doc)
  testEmbedOk : Bool
  testEmbedErrMsg : String
  batchOk : Nat → Bool
  batchErrMsg : Nat → String

/-- One entry of the `results` array built by the batch loop
(`endIndex` stores `endIndex - 1` exactly as the source does). -/
structure BatchResult where
  batchNumber : Nat
  documentsInBatch : Nat
  documentsProcessed : Nat
  startIndex : Nat
  endIndex : Nat
  status : String
  error : Option String
deriving DecidableEq, Repr

/-- `docs.slice(i * batchSize, Math.min(i * batchSize + batchSize, docs.length))`. -/
def batchSlice (docs : List Doc) (i : Nat) : List Doc :=
  let startIndex := i * 50
  let endIndex := min (startIndex + 50) docs.length
  (docs.drop startIndex).take (endIndex - startIndex)

/-- The `results` entry pushed for batch `i`. -/
def batchEntry (env : SyncEnv) (docs : List Doc) (i : Nat) : BatchResult :=
  let startIndex := i * 50
  let endIndex := min (startIndex + 50) docs.length
  let batch := batchSlice docs i
  if env.batchOk i then
    ⟨i + 1, batch.length, batch.length, startIndex, endIndex - 1, "success", none⟩
  else
    ⟨i + 1, batch.length, 0, startIndex, endIndex - 1, "error", some (env.batchErrMsg i)⟩

/-- Contribution of batch `i` to `processedCount`. -/
def batchDelta (env : SyncEnv) (docs : List Doc) (i : Nat) : Nat :=
  if env.batchOk i then (batchSlice docs i).length else 0

/-- Events of iteration `i`: the upsert attempt, then the 2000 ms sleep
unless this is the last batch. -/
def batchTrace (docs : List Doc) (total i : Nat) : List Event :=
  Event.addDocuments (batchSlice docs i) :: (if i < total - 1 then [Event.sleep 2000] else [])

/-- Accumulator of the batch loop: `processedCount`, the `results` array,
and the event trace. -/
structure LoopState where
  processedCount : Nat
  results : List BatchResult
  trace : List Event

/-- The `for (let i = 0; i < totalBatches; i++)` loop of `sync`, run over an
explicit list of batch indices. -/
def syncBatchLoop (env : SyncEnv) (docs : List Doc) (total : Nat) : List Nat → LoopState
  | [] => ⟨0, [], []⟩
  | i :: rest =>
    let st := syncBatchLoop env docs total rest
    ⟨batchDelta env docs i + st.processedCount,
     batchEntry env docs i :: st.results,
     batchTrace docs total i ++ st.trace⟩

/-- `Math.ceil(docs.length / batchSize)` with `batchSize = 50`. -/
def totalBatchesOf (n : Nat) : Nat := (n + 50 - 1) / 50

/-- The batch loop exactly as `sync` runs it: over batch indices
`0, …, totalBatches - 1`. -/
def syncLoopRun (env : SyncEnv) (docs : List Doc) : LoopState :=
  syncBatchLoop env docs (totalBatchesOf docs.length) (List.range (totalBatchesOf docs.length))

/-- The JSON body returned by a completed `sync` request (the static
`embeddingModel` / `expectedEmbeddingDimension` strings are elided; the
`summary` object is flattened into the two counts). -/
structure SyncResponse where
  totalDocuments : Nat
  processedDocuments : Nat
  totalBatches : Nat
  batchSize : Nat
  results : List BatchResult
  successfulBatches : Nat
  failedBatches : Nat
deriving DecidableEq, Repr

/-- Outcome of a `sync` request: a `BadRequestException` (HTTP 400) or the
success body. -/
inductive SyncOutcome
  | badRequest (message : String)
  | ok (resp : SyncResponse)
deriving DecidableEq, Repr

/-- `AppController.sync`. The rejection guards run before any file or
network activity; inside the `try` the temp file is written, the CSV is
loaded, one test embedding is made when at least one document exists, and
the batch loop runs; thrown errors are re-thrown as
`BadRequestException` with the prefixed message; the `finally` block
always unlinks the temp file once `tempFilePath` was set. -/
def sync (env : SyncEnv) (file : Option SyncFile) : SyncOutcome × List Event :=
  match file with
  | none => (SyncOutcome.badRequest "No CSV file provided", [])
  | some f =>
    if (f.mimetype != "text/csv") && !(jsEndsWith f.originalname ".csv") then
      (SyncOutcome.badRequest "File must be a CSV", [])
    else if env.writeOk = false then
      (SyncOutcome.badRequest ("Failed to process CSV: " ++ env.writeErrMsg),
       [Event.writeTempFile, Event.unlinkTempFile])
    else
      match env.loadResult with
      | Except.error msg =>
        (SyncOutcome.badRequest ("Failed to process CSV: " ++ msg),
         [Event.writeTempFile, Event.unlinkTempFile])
      | Except.ok docs =>
        let testTrace : List Event :=
          match docs with
          | [] => []
          | d :: _ => [Event.embedQuery d.pageContent]
        if decide (docs.length > 0) && !env.testEmbedOk then
          (SyncOutcome.badRequest ("Failed to process CSV: " ++ env.testEmbedErrMsg),
           Event.writeTempFile :: testTrace ++ [Event.unlinkTempFile])
        else
          let total := totalBatchesOf docs.length
          let st := syncLoopRun env docs
          (SyncOutcome.ok
            { totalDocuments := docs.length
              processedDocuments := st.processedCount
              totalBatches := total
              batchSize := 50
              results := st.results
              successfulBatches := (st.results.filter (fun r => r.status == "success")).length
              failedBatches := (st.results.filter (fun r => r.status == "error")).length },
           Event.writeTempFile :: testTrace ++ st.trace ++ [Event.unlinkTempFile])

/-- Projection used to state claims about the success body of `sync`. -/
def SyncOutcome.processedTotal : SyncOutcome → Option (Nat × Nat)
  | SyncOutcome.ok r => some (r.processedDocuments, r.totalDocuments)
  | SyncOutcome.badRequest _ => none

/-! ## `AppController.chat` -/

/-- Externally visible effects of one `chat` request. -/
inductive ChatEvent
  | embedQuery (q : String)
  | vectorSearch (limit : Nat)
  | reconstructModel (temperature : ℚ)
  | invokeModel
deriving DecidableEq, Repr

/-- The JSON body of a `chat` request; absent optional fields are `none`. -/
structure ChatRequest where
  query : String
  limit : Option Nat
  temperature : Option ℚ
deriving DecidableEq, Repr

/-- Oracles for the external calls made during `chat`. -/
structure ChatEnv where
  searchOk : Bool
  searchErrMsg : String
  rawResults : List (Doc × ℚ)
  modelOk : Bool
  modelErrMsg : String
  modelContent : String

/-- Success body of `chat` (`topScores` is the only metadata field the
claims mention; it is `none` on the no-results path, which returns no
metadata object at all). -/
structure ChatAnswer where
  response : String
  query : String
  resultsFound : Nat
  topScores : Option (List ℚ)
deriving DecidableEq, Repr

/-- Outcome of a `chat` request. -/
inductive ChatOutcome
  | badRequest (message : String)
  | ok (answer : ChatAnswer)
deriving DecidableEq, Repr

/-- `AppController.chat`. The whole handler body is wrapped in a `try`
whose `catch` re-throws as `BadRequestException` with the prefixed
message. An empty (or whitespace-only) query throws before the
temperature is examined; a supplied temperature rebuilds the model with
the value clamped into `[0, 2]`; the similarity search then runs, the
early-return fires on zero retained matches, and otherwise the model is
invoked once. -/
def chat (env : ChatEnv) (req : ChatRequest) : ChatOutcome × List ChatEvent :=
  if jsTrim req.query == "" then
    (ChatOutcome.badRequest "Chat processing failed: Query is required", [])
  else
    let lim := req.limit.getD 4
    let modelTrace : List ChatEvent :=
      match req.temperature with
      | none => []
      | some t => [ChatEvent.reconstructModel (max 0 (min 2 t))]
    if env.searchOk = false then
      (ChatOutcome.badRequest ("Chat processing failed: " ++ env.searchErrMsg),
       modelTrace ++ [ChatEvent.embedQuery req.query, ChatEvent.vectorSearch lim])
    else
      let searchResults := performSimilaritySearch env.rawResults
      if searchResults.length == 0 then
        (ChatOutcome.ok
          ⟨"I couldn't find any relevant transaction data for your query.", req.query, 0, none⟩,
         modelTrace ++ [ChatEvent.embedQuery req.query, ChatEvent.vectorSearch lim])
      else if env.modelOk = false then
        (ChatOutcome.badRequest ("Chat processing failed: " ++ env.modelErrMsg),
         modelTrace ++ [ChatEvent.embedQuery req.query, ChatEvent.vectorSearch lim,
           ChatEvent.invokeModel])
      else
        (ChatOutcome.ok
          ⟨env.modelContent, req.query, searchResults.length,
           some (searchResults.map (fun r => r.2))⟩,
         modelTrace ++ [ChatEvent.embedQuery req.query, ChatEvent.vectorSearch lim,
           ChatEvent.invokeModel])

/-! ## `AppController.summarize` -/

/-- HTTP-level outcome of a request handler: a thrown
`BadRequestException` (HTTP 400) or a returned body (HTTP 200). -/
inductive HttpOut (A : Type)
  | ok (body : A)
  | badRequest (message : String)
deriving DecidableEq, Repr

/-- Does the handler outcome surface as HTTP 400? -/
def HttpOut.isBadRequest {A : Type} : HttpOut A → Bool
  | HttpOut.badRequest _ => true
  | HttpOut.ok _ => false

/-- The three bodies `summarize` can return: the no-data body, the
caught-error body (`success: false` with the underlying message in
`details`), and the success body (the `period` metadata is elided). -/
inductive SummarizeResult (J : Type)
  | noRecords
  | failure (details : String)
  | success (recordsAnalyzed : Nat) (insights : AnalysisResult J)
deriving DecidableEq

/-- Oracles for the external calls made during `summarize`. -/
structure SummarizeEnv (J : Type) where
  searchOk : Bool
  searchErrMsg : String
  rawResults : List (Doc × ℚ)
  modelOk : Bool
  modelErrMsg : String
  modelContent : String
  parseJson : String → Option J

/-- `AppController.summarize`. Everything after `ensureInitialized` is in a
`try` whose `catch` RETURNS the error body (it does not throw), so no
caught error ever surfaces as HTTP 400. -/
def summarize {J : Type} (env : SummarizeEnv J) : HttpOut (SummarizeResult J) :=
  if env.searchOk = false then
    HttpOut.ok (SummarizeResult.failure env.searchErrMsg)
  else
    let transactionData := getTransactionData env.rawResults
    if transactionData.length == 0 then
      HttpOut.ok SummarizeResult.noRecords
    else if env.modelOk = false then
      HttpOut.ok (SummarizeResult.failure env.modelErrMsg)
    else
      HttpOut.ok
        (SummarizeResult.success transactionData.length
          (enhancedJsonParser env.parseJson transactionData env.modelContent))

/-! ## Claims about the retrieval thresholds (C2) -/

/-- Claim C2: every match returned by `performSimilaritySearch` has score at
least 0.5 and every record returned by `getTransactionData` has score at
least 0.6; each returned list is exactly the sublist of the raw search
results meeting the threshold, in the original order (order by `Sublist`,
content by the membership equivalence, multiplicity by the count formula). -/
theorem c2_threshold_filters (chatRaw summRaw : List (Doc × ℚ)) :
    (∀ p ∈ performSimilaritySearch chatRaw, (0.5 : ℚ) ≤ p.2) ∧
    (performSimilaritySearch chatRaw).Sublist chatRaw ∧
    (∀ p : Doc × ℚ, p ∈ performSimilaritySearch chatRaw ↔ p ∈ chatRaw ∧ (0.5 : ℚ) ≤ p.2) ∧
    (∀ p : Doc × ℚ, (performSimilaritySearch chatRaw).count p =
      if (0.5 : ℚ) ≤ p.2 then chatRaw.count p else 0) ∧
    (∀ p ∈ getTransactionData summRaw, (0.6 : ℚ) ≤ p.2) ∧
    (getTransactionData summRaw).Sublist summRaw ∧
    (∀ p : Doc × ℚ, p ∈ getTransactionData summRaw ↔ p ∈ summRaw ∧ (0.6 : ℚ) ≤ p.2) ∧
    (∀ p : Doc × ℚ, (getTransactionData summRaw).count p =
      if (0.6 : ℚ) ≤ p.2 then summRaw.count p else 0) := by
  refine ⟨?_, List.filter_sublist _, ?_, ?_, ?_, List.filter_sublist _, ?_, ?_⟩
  · intro p hp
    have := (List.mem_filter.mp hp).2
    simpa using this
  · intro p
    simp [performSimilaritySearch, List.mem_filter]
  · intro p
    by_cases h : (0.5 : ℚ) ≤ p.2
    · rw [if_pos h]
      exact List.count_filter (by simpa using h)
    · rw [if_neg h]
      refine List.count_eq_zero.mpr ?_
      intro hp
      exact h (by simpa using (List.mem_filter.mp hp).2)
  · intro p hp
    have := (List.mem_filter.mp hp).2
    simpa using this
  · intro p
    simp [getTransactionData, List.mem_filter]
  · intro p
    by_cases h : (0.6 : ℚ) ≤ p.2
    · rw [if_pos h]
      exact List.count_filter (by simpa using h)
    · rw [if_neg h]
      refine List.count_eq_zero.mpr ?_
      intro hp
      exact h (by simpa using (List.mem_filter.mp hp).2)

/-- Witness for C2 at a concrete one-element search result. -/
theorem c2_witness :
    (⟨⟨"row"⟩, (1 : ℚ)⟩ : Doc × ℚ) ∈ performSimilaritySearch [⟨⟨"row"⟩, (1 : ℚ)⟩] :=
  ((c2_threshold_filters [⟨⟨"row"⟩, (1 : ℚ)⟩] []).2.2.1 _).mpr ⟨by simp, by norm_num⟩

/-! ## Claims about the summarization fallback (C3) -/

/-- Claim C3: whenever the model output is not parseable as JSON after
stripping code fences and surrounding text, `enhancedJsonParser` returns
the static fallback analysis, whose `processingError` field is `true`;
consequently the whole summarization pipeline returns the fallback inside
its success body. -/
theorem c3_fallback_on_parse_failure :
    (∀ {J : Type} (parseJson : String → Option J) (txData : List (Doc × ℚ)) (content : String),
      parseJson (extractBraces (stripFences (jsTrim content))) = none →
      enhancedJsonParser parseJson txData content =
        AnalysisResult.fallback (generateFallbackAnalysis txData content) ∧
      (generateFallbackAnalysis txData content).processingError = true) ∧
    (∀ {J : Type} (env : SummarizeEnv J),
      env.searchOk = true → env.modelOk = true →
      getTransactionData env.rawResults ≠ [] →
      env.parseJson (extractBraces (stripFences (jsTrim env.modelContent))) = none →
      summarize env = HttpOut.ok (SummarizeResult.success
        (getTransactionData env.rawResults).length
        (AnalysisResult.fallback
          (generateFallbackAnalysis (getTransactionData env.rawResults) env.modelContent)))) := by
  constructor
  · intro J parseJson txData content h
    refine ⟨?_, rfl⟩
    simp only [enhancedJsonParser, h]
  · intro J env hs hm hne hp
    have hlen : ((getTransactionData env.rawResults).length == 0) = false := by
      simp [List.length_eq_zero, hne]
    simp [summarize, hs, hm, hlen, enhancedJsonParser, hp]

/-- Witness for C3: a parser that always fails yields the fallback object. -/
theorem c3_witness :
    enhancedJsonParser (fun _ => (none : Option Unit)) [] "oops" =
      AnalysisResult.fallback (generateFallbackAnalysis [] "oops") ∧
    (generateFallbackAnalysis [] "oops").processingError = true :=
  c3_fallback_on_parse_failure.1 (fun _ => none) [] "oops" rfl

/-! ## Claims about the system-prompt dispatch (C7) -/

/-- Claim C7: `getSystemPrompt` lowercases the query and returns exactly one
of five fixed templates by substring match, with precedence
maximum/highest/largest, then minimum/lowest/smallest, then
summary/overview, then pattern/trend, then the default template. -/
theorem c7_system_prompt (query : String) :
    (getSystemPrompt query = maxPromptTemplate ∨ getSystemPrompt query = minPromptTemplate ∨
      getSystemPrompt query = summaryPromptTemplate ∨ getSystemPrompt query = trendPromptTemplate ∨
      getSystemPrompt query = defaultPromptTemplate) ∧
    ((jsIncludes (jsToLower query) "maximum" || jsIncludes (jsToLower query) "highest" ||
        jsIncludes (jsToLower query) "largest") = true →
      getSystemPrompt query = maxPromptTemplate) ∧
    ((jsIncludes (jsToLower query) "maximum" || jsIncludes (jsToLower query) "highest" ||
        jsIncludes (jsToLower query) "largest") = false →
      (jsIncludes (jsToLower query) "minimum" || jsIncludes (jsToLower query) "lowest" ||
        jsIncludes (jsToLower query) "smallest") = true →
      getSystemPrompt query = minPromptTemplate) ∧
    ((jsIncludes (jsToLower query) "maximum" || jsIncludes (jsToLower query) "highest" ||
        jsIncludes (jsToLower query) "largest") = false →
      (jsIncludes (jsToLower query) "minimum" || jsIncludes (jsToLower query) "lowest" ||
        jsIncludes (jsToLower query) "smallest") = false →
      (jsIncludes (jsToLower query) "summary" || jsIncludes (jsToLower query) "overview") = true →
      getSystemPrompt query = summaryPromptTemplate) ∧
    ((jsIncludes (jsToLower query) "maximum" || jsIncludes (jsToLower query) "highest" ||
        jsIncludes (jsToLower query) "largest") = false →
      (jsIncludes (jsToLower query) "minimum" || jsIncludes (jsToLower query) "lowest" ||
        jsIncludes (jsToLower query) "smallest") = false →
      (jsIncludes (jsToLower query) "summary" || jsIncludes (jsToLower query) "overview") = false →
      (jsIncludes (jsToLower query) "pattern" || jsIncludes (jsToLower query) "trend") = true →
      getSystemPrompt query = trendPromptTemplate) ∧
    ((jsIncludes (jsToLower query) "maximum" || jsIncludes (jsToLower query) "highest" ||
        jsIncludes (jsToLower query) "largest") = false →
      (jsIncludes (jsToLower query) "minimum" || jsIncludes (jsToLower query) "lowest" ||
        jsIncludes (jsToLower query) "smallest") = false →
      (jsIncludes (jsToLower query) "summary" || jsIncludes (jsToLower query) "overview") = false →
      (jsIncludes (jsToLower query) "pattern" || jsIncludes (jsToLower query) "trend") = false →
      getSystemPrompt query = defaultPromptTemplate) := by
  refine ⟨?_, ?_, ?_, ?_, ?_, ?_⟩
  · cases h1 : (jsIncludes (jsToLower query) "maximum" || jsIncludes (jsToLower query) "highest" ||
        jsIncludes (jsToLower query) "largest") <;>
      cases h2 : (jsIncludes (jsToLower query) "minimum" || jsIncludes (jsToLower query) "lowest" ||
        jsIncludes (jsToLower query) "smallest") <;>
      cases h3 : (jsIncludes (jsToLower query) "summary" ||
        jsIncludes (jsToLower query) "overview") <;>
      cases h4 : (jsIncludes (jsToLower query) "pattern" || jsIncludes (jsToLower query) "trend") <;>
      simp [getSystemPrompt, h1, h2, h3, h4]
  · intro h1
    simp [getSystemPrompt, h1]
  · intro h1 h2
    simp [getSystemPrompt, h1, h2]
  · intro h1 h2 h3
    simp [getSystemPrompt, h1, h2, h3]
  · intro h1 h2 h3 h4
    simp [getSystemPrompt, h1, h2, h3, h4]
  · intro h1 h2 h3 h4
    simp [getSystemPrompt, h1, h2, h3, h4]

/-- Witness for C7: a query containing `MAXIMUM` (case-insensitively) gets
the maximum template. -/
theorem c7_witness : getSystemPrompt "what is the MAXIMUM transaction" = maxPromptTemplate :=
  (c7_system_prompt "what is the MAXIMUM transaction").2.1 (by decide)

/-! ## Claims about `sync` input validation (C4) -/

/-- Claim C4: a missing file and a file that is neither of mimetype
`text/csv` nor named `*.csv` are rejected with a `BadRequestException`
before any effect happens, in particular before any embedding call. -/
theorem c4_reject_non_csv :
    (∀ env : SyncEnv, sync env none = (SyncOutcome.badRequest "No CSV file provided", [])) ∧
    (∀ (env : SyncEnv) (f : SyncFile), f.mimetype ≠ "text/csv" →
      jsEndsWith f.originalname ".csv" = false →
      sync env (some f) = (SyncOutcome.badRequest "File must be a CSV", []) ∧
      ∀ t, Event.embedQuery t ∉ (sync env (some f)).2) := by
  refine ⟨fun env => rfl, ?_⟩
  intro env f h1 h2
  have heq : sync env (some f) = (SyncOutcome.badRequest "File must be a CSV", []) := by
    simp [sync, h1, h2]
  exact ⟨heq, by simp [heq]⟩

/-- Witness for C4 at a concrete JSON upload. -/
theorem c4_witness :
    sync ⟨true, "", Except.ok [], true, "", fun _ => true, fun _ => ""⟩
        (some ⟨"application/json", "data.txt"⟩) =
      (SyncOutcome.badRequest "File must be a CSV", []) :=
  (c4_reject_non_csv.2 ⟨true, "", Except.ok [], true, "", fun _ => true, fun _ => ""⟩
    ⟨"application/json", "data.txt"⟩ (by decide) (by decide)).1

/-! ## Claims about temp-file cleanup (C8) -/

/-- Claim C8: once a `sync` request passes the CSV check (and therefore
reaches temp-file creation), the temporary file is unlinked on every
outcome: write failure, load failure, embedding failure, any combination
of per-batch failures, and full success. -/
theorem c8_unlink_always (env : SyncEnv) (f : SyncFile)
    (h : f.mimetype = "text/csv" ∨ jsEndsWith f.originalname ".csv" = true) :
    Event.unlinkTempFile ∈ (sync env (some f)).2 := by
  have hcond : ((f.mimetype != "text/csv") && !(jsEndsWith f.originalname ".csv")) = false := by
    rcases h with h | h <;> simp [h]
  cases hw : env.writeOk
  · simp [sync, hcond, hw]
  · cases hl : env.loadResult with
    | error msg => simp [sync, hcond, hw, hl]
    | ok docs =>
      cases he : env.testEmbedOk <;> cases docs <;> simp [sync, hcond, hw, hl, he]

/-- Witness for C8: the temp file is unlinked even when the write itself
fails. -/
theorem c8_witness :
    Event.unlinkTempFile ∈
      (sync ⟨false, "disk full", Except.ok [], true, "", fun _ => true, fun _ => ""⟩
        (some ⟨"text/csv", "f.csv"⟩)).2 :=
  c8_unlink_always ⟨false, "disk full", Except.ok [], true, "", fun _ => true, fun _ => ""⟩
    ⟨"text/csv", "f.csv"⟩ (Or.inl rfl)

/-! ## Claims about per-endpoint error reporting (C5) -/

/-- Environment exhibiting a caught error inside `summarize`. -/
def c5SummarizeEnv : SummarizeEnv Unit :=
  { searchOk := false
    searchErrMsg := "vector index unreachable"
    rawResults := []
    modelOk := true
    modelErrMsg := ""
    modelContent := ""
    parseJson := fun _ => none }

/-- Counterexample to claim C5: `summarize` catches the error thrown by the
similarity search yet returns an HTTP 200 body (`success: false` with the
message in `details`), not an HTTP 400. -/
theorem c5_counterexample :
    summarize c5SummarizeEnv =
      HttpOut.ok (SummarizeResult.failure "vector index unreachable") ∧
    (summarize c5SummarizeEnv).isBadRequest = false :=
  ⟨rfl, rfl⟩

/-- Claim C5 as amended: every error caught by the endpoint-level catch of
`sync` (temp-file write, CSV load, test-embedding) and of `chat` (query
validation, similarity search, model invocation) is re-thrown as HTTP 400
carrying the underlying message; per-batch upsert errors inside `sync` are
recorded in the results array and do not become HTTP 400; every error
caught by `summarize` (similarity search, model invocation) produces an
HTTP 200 error body carrying the underlying message in `details`. -/
theorem c5_amended :
    (∀ (env : SyncEnv) (f : SyncFile),
      (f.mimetype = "text/csv" ∨ jsEndsWith f.originalname ".csv" = true) →
      env.writeOk = false →
      (sync env (some f)).1 =
        SyncOutcome.badRequest ("Failed to process CSV: " ++ env.writeErrMsg)) ∧
    (∀ (env : SyncEnv) (f : SyncFile) (msg : String),
      (f.mimetype = "text/csv" ∨ jsEndsWith f.originalname ".csv" = true) →
      env.writeOk = true → env.loadResult = Except.error msg →
      (sync env (some f)).1 = SyncOutcome.badRequest ("Failed to process CSV: " ++ msg)) ∧
    (∀ (env : SyncEnv) (f : SyncFile) (d : Doc) (rest : List Doc),
      (f.mimetype = "text/csv" ∨ jsEndsWith f.originalname ".csv" = true) →
      env.writeOk = true → env.loadResult = Except.ok (d :: rest) → env.testEmbedOk = false →
      (sync env (some f)).1 =
        SyncOutcome.badRequest ("Failed to process CSV: " ++ env.testEmbedErrMsg)) ∧
    (∀ (env : SyncEnv) (f : SyncFile) (docs : List Doc),
      (f.mimetype = "text/csv" ∨ jsEndsWith f.originalname ".csv" = true) →
      env.writeOk = true → env.loadResult = Except.ok docs → env.testEmbedOk = true →
      ∃ r : SyncResponse, (sync env (some f)).1 = SyncOutcome.ok r) ∧
    (∀ (env : ChatEnv) (req : ChatRequest), jsTrim req.query = "" →
      (chat env req).1 = ChatOutcome.badRequest "Chat processing failed: Query is required") ∧
    (∀ (env : ChatEnv) (req : ChatRequest), jsTrim req.query ≠ "" → env.searchOk = false →
      (chat env req).1 =
        ChatOutcome.badRequest ("Chat processing failed: " ++ env.searchErrMsg)) ∧
    (∀ (env : ChatEnv) (req : ChatRequest), jsTrim req.query ≠ "" → env.searchOk = true →
      performSimilaritySearch env.rawResults ≠ [] → env.modelOk = false →
      (chat env req).1 =
        ChatOutcome.badRequest ("Chat processing failed: " ++ env.modelErrMsg)) ∧
    (∀ (J : Type) (env : SummarizeEnv J), env.searchOk = false →
      summarize env = HttpOut.ok (SummarizeResult.failure env.searchErrMsg) ∧
      (summarize env).isBadRequest = false) ∧
    (∀ (J : Type) (env : SummarizeEnv J), env.searchOk = true →
      getTransactionData env.rawResults ≠ [] → env.modelOk = false →
      summarize env = HttpOut.ok (SummarizeResult.failure env.modelErrMsg) ∧
      (summarize env).isBadRequest = false) := by
  refine ⟨?_, ?_, ?_, ?_, ?_, ?_, ?_, ?_, ?_⟩
  · intro env f h hw
    have hcond : ((f.mimetype != "text/csv") && !(jsEndsWith f.originalname ".csv")) = false := by
      rcases h with h | h <;> simp [h]
    simp [sync, hcond, hw]
  · intro env f msg h hw hl
    have hcond : ((f.mimetype != "text/csv") && !(jsEndsWith f.originalname ".csv")) = false := by
      rcases h with h | h <;> simp [h]
    simp [sync, hcond, hw, hl]
  · intro env f d rest h hw hl he
    have hcond : ((f.mimetype != "text/csv") && !(jsEndsWith f.originalname ".csv")) = false := by
      rcases h with h | h <;> simp [h]
    simp [sync, hcond, hw, hl, he]
  · intro env f docs h hw hl he
    have hcond : ((f.mimetype != "text/csv") && !(jsEndsWith f.originalname ".csv")) = false := by
      rcases h with h | h <;> simp [h]
    simp [sync, hcond, hw, hl, he]
  · intro env req hq
    simp [chat, hq]
  · intro env req hq hs
    have hqf : (jsTrim req.query == "") = false := by
      simp [hq]
    simp [chat, hqf, hs]
  · intro env req hq hs hne hm
    have hqf : (jsTrim req.query == "") = false := by
      simp [hq]
    have hz : ((performSimilaritySearch env.rawResults).length == 0) = false := by
      simp [List.length_eq_zero, hne]
    simp [chat, hqf, hs, hz, hm]
  · intro J env hs
    constructor <;> simp [summarize, hs, HttpOut.isBadRequest]
  · intro J env hs hne hm
    have hlen : ((getTransactionData env.rawResults).length == 0) = false := by
      simp [List.length_eq_zero, hne]
    constructor <;> simp [summarize, hs, hlen, hm, HttpOut.isBadRequest]

/-- Witness for the amended C5 exercising every caught-error site: the three
`sync` error sites plus the batch-failure 200 path, the three `chat` error
sites, and both `summarize` error sites. -/
theorem c5_amended_witness :
    (sync ⟨false, "disk full", Except.ok [], true, "", fun _ => true, fun _ => ""⟩
        (some ⟨"text/csv", "f.csv"⟩)).1 =
      SyncOutcome.badRequest ("Failed to process CSV: " ++ "disk full") ∧
    (sync ⟨true, "", Except.error "bad csv", true, "", fun _ => true, fun _ => ""⟩
        (some ⟨"text/csv", "f.csv"⟩)).1 =
      SyncOutcome.badRequest ("Failed to process CSV: " ++ "bad csv") ∧
    (sync ⟨true, "", Except.ok [⟨"row"⟩], false, "embed down", fun _ => true, fun _ => ""⟩
        (some ⟨"text/csv", "f.csv"⟩)).1 =
      SyncOutcome.badRequest ("Failed to process CSV: " ++ "embed down") ∧
    (∃ r : SyncResponse,
      (sync ⟨true, "", Except.ok [⟨"row"⟩], true, "", fun _ => false, fun _ => "upsert down"⟩
        (some ⟨"text/csv", "f.csv"⟩)).1 = SyncOutcome.ok r) ∧
    (chat ⟨true, "", [], true, "", ""⟩ ⟨" ", none, none⟩).1 =
      ChatOutcome.badRequest "Chat processing failed: Query is required" ∧
    (chat ⟨false, "embed quota exceeded", [], true, "", ""⟩ ⟨"hi", none, none⟩).1 =
      ChatOutcome.badRequest ("Chat processing failed: " ++ "embed quota exceeded") ∧
    (chat ⟨true, "", [⟨⟨"row"⟩, 1⟩], false, "model down", ""⟩ ⟨"hi", none, none⟩).1 =
      ChatOutcome.badRequest ("Chat processing failed: " ++ "model down") ∧
    summarize c5SummarizeEnv = HttpOut.ok (SummarizeResult.failure "vector index unreachable") ∧
    summarize (⟨true, "", [⟨⟨"row"⟩, 1⟩], false, "model down", "", fun _ => none⟩ :
        SummarizeEnv Unit) =
      HttpOut.ok (SummarizeResult.failure "model down") :=
  ⟨c5_amended.1 ⟨false, "disk full", Except.ok [], true, "", fun _ => true, fun _ => ""⟩
      ⟨"text/csv", "f.csv"⟩ (Or.inl rfl) rfl,
   c5_amended.2.1 ⟨true, "", Except.error "bad csv", true, "", fun _ => true, fun _ => ""⟩
      ⟨"text/csv", "f.csv"⟩ "bad csv" (Or.inl rfl) rfl rfl,
   c5_amended.2.2.1 ⟨true, "", Except.ok [⟨"row"⟩], false, "embed down", fun _ => true, fun _ => ""⟩
      ⟨"text/csv", "f.csv"⟩ ⟨"row"⟩ [] (Or.inl rfl) rfl rfl rfl,
   c5_amended.2.2.2.1
      ⟨true, "", Except.ok [⟨"row"⟩], true, "", fun _ => false, fun _ => "upsert down"⟩
      ⟨"text/csv", "f.csv"⟩ [⟨"row"⟩] (Or.inl rfl) rfl rfl rfl,
   c5_amended.2.2.2.2.1 ⟨true, "", [], true, "", ""⟩ ⟨" ", none, none⟩ (by decide),
   c5_amended.2.2.2.2.2.1 ⟨false, "embed quota exceeded", [], true, "", ""⟩ ⟨"hi", none, none⟩
      (by decide) rfl,
   c5_amended.2.2.2.2.2.2.1 ⟨true, "", [⟨⟨"row"⟩, 1⟩], false, "model down", ""⟩
      ⟨"hi", none, none⟩ (by decide) rfl
      (by norm_num [performSimilaritySearch, List.filter]) rfl,
   (c5_amended.2.2.2.2.2.2.2.1 Unit c5SummarizeEnv rfl).1,
   (c5_amended.2.2.2.2.2.2.2.2 Unit
      ⟨true, "", [⟨⟨"row"⟩, 1⟩], false, "model down", "", fun _ => none⟩ rfl
      (by norm_num [getTransactionData, List.filter]) rfl).1⟩

/-! ## Claims about the chat temperature clamp (C9) -/

/-- Request supplying a temperature together with a blank query. -/
def c9Request : ChatRequest := { query := "", limit := none, temperature := some 5 }

/-- Environment for the C9 counterexample. -/
def c9Env : ChatEnv :=
  { searchOk := true, searchErrMsg := "", rawResults := [], modelOk := true,
    modelErrMsg := "", modelContent := "" }

/-- Counterexample to claim C9 as stated: a request that supplies a
temperature but a blank query is rejected before the temperature is
examined, so the model is never reconstructed (the trace is empty). -/
theorem c9_counterexample :
    c9Request.temperature = some 5 ∧
    chat c9Env c9Request = (ChatOutcome.badRequest "Chat processing failed: Query is required", []) :=
  ⟨rfl, rfl⟩

/-- Claim C9 as amended: for every chat request that passes the query
validation and supplies a temperature, the model is reconstructed with the
temperature clamped into `[0, 2]` (below 0 becomes 0, above 2 becomes 2,
in-range values are unchanged); when the temperature is omitted the model
is never reconstructed. -/
theorem c9_amended :
    (∀ (env : ChatEnv) (req : ChatRequest) (t : ℚ),
      jsTrim req.query ≠ "" → req.temperature = some t →
      ChatEvent.reconstructModel (max 0 (min 2 t)) ∈ (chat env req).2 ∧
      0 ≤ max 0 (min 2 t) ∧ max 0 (min 2 t) ≤ 2 ∧
      (t < 0 → max 0 (min 2 t) = 0) ∧
      (2 < t → max 0 (min 2 t) = 2) ∧
      (0 ≤ t → t ≤ 2 → max 0 (min 2 t) = t)) ∧
    (∀ (env : ChatEnv) (req : ChatRequest), req.temperature = none →
      ∀ u : ℚ, ChatEvent.reconstructModel u ∉ (chat env req).2) := by
  constructor
  · intro env req t hq ht
    have hqf : (jsTrim req.query == "") = false := by simp [hq]
    refine ⟨?_, le_max_left _ _, max_le (by norm_num) (min_le_left _ _), ?_, ?_, ?_⟩
    · cases hs : env.searchOk <;>
        cases hz : ((performSimilaritySearch env.rawResults).length == 0) <;>
        cases hm : env.modelOk <;>
        simp [chat, hqf, ht, hs, hz, hm]
    · intro hlt
      rw [min_eq_right (by linarith), max_eq_left (by linarith)]
    · intro hgt
      rw [min_eq_left (by linarith), max_eq_right (by norm_num)]
    · intro h0 h2
      rw [min_eq_right h2, max_eq_right h0]
  · intro env req ht u
    cases hq : (jsTrim req.query == "")
    · cases hs : env.searchOk <;>
        cases hz : ((performSimilaritySearch env.rawResults).length == 0) <;>
        cases hm : env.modelOk <;>
        simp [chat, hq, ht, hs, hz, hm]
    · simp [chat, hq]

/-- Witness for the amended C9: temperature 5 is clamped to 2. -/
theorem c9_amended_witness :
    ChatEvent.reconstructModel 2 ∈ (chat c9Env ⟨"hi", none, some 5⟩).2 := by
  have h := c9_amended.1 c9Env ⟨"hi", none, some 5⟩ 5 (by decide) rfl
  have h2 : max 0 (min 2 (5 : ℚ)) = 2 := h.2.2.2.2.1 (by norm_num)
  exact h2 ▸ h.1

/-! ## Claims about the chat no-results early return (C10) -/

/-- Claim C10: when the similarity search retains no match at or above the
0.5 threshold, `chat` returns the fixed no-results body and never invokes
the chat model. -/
theorem c10_no_results (env : ChatEnv) (req : ChatRequest)
    (hq : jsTrim req.query ≠ "") (hs : env.searchOk = true)
    (hz : performSimilaritySearch env.rawResults = []) :
    (chat env req).1 = ChatOutcome.ok
      ⟨"I couldn't find any relevant transaction data for your query.", req.query, 0, none⟩ ∧
    ChatEvent.invokeModel ∉ (chat env req).2 := by
  have hqf : (jsTrim req.query == "") = false := by simp [hq]
  cases ht : req.temperature <;> simp [chat, hqf, hs, hz, ht]

/-- Witness for C10 on an empty raw result list. -/
theorem c10_witness :
    (chat ⟨true, "", [], true, "", "irrelevant"⟩ ⟨"hello", none, none⟩).1 = ChatOutcome.ok
      ⟨"I couldn't find any relevant transaction data for your query.", "hello", 0, none⟩ ∧
    ChatEvent.invokeModel ∉ (chat ⟨true, "", [], true, "", "irrelevant"⟩ ⟨"hello", none, none⟩).2 :=
  c10_no_results ⟨true, "", [], true, "", "irrelevant"⟩ ⟨"hello", none, none⟩ (by decide) rfl rfl

/-! ## Structure of the batch loop -/

/-- Recognizer for sleep events, used to count inter-batch pauses. -/
def isSleepEvent : Event → Bool
  | Event.sleep _ => true
  | _ => false

theorem syncBatchLoop_processed (env : SyncEnv) (docs : List Doc) (total : Nat) :
    ∀ l : List Nat,
      (syncBatchLoop env docs total l).processedCount = (l.map (batchDelta env docs)).sum := by
  intro l
  induction l with
  | nil => rfl
  | cons i rest ih => simp [syncBatchLoop, ih]

theorem syncBatchLoop_results (env : SyncEnv) (docs : List Doc) (total : Nat) :
    ∀ l : List Nat,
      (syncBatchLoop env docs total l).results = l.map (batchEntry env docs) := by
  intro l
  induction l with
  | nil => rfl
  | cons i rest ih => simp [syncBatchLoop, ih]

theorem syncBatchLoop_trace (env : SyncEnv) (docs : List Doc) (total : Nat) :
    ∀ l : List Nat,
      (syncBatchLoop env docs total l).trace = (l.map (batchTrace docs total)).flatten := by
  intro l
  induction l with
  | nil => rfl
  | cons i rest ih => simp [syncBatchLoop, ih]

theorem batchSlice_length (docs : List Doc) (i : Nat) :
    (batchSlice docs i).length = min (i * 50 + 50) docs.length - i * 50 := by
  simp [batchSlice]
  omega

theorem range'_batchDelta_sum (env : SyncEnv) (docs : List Doc)
    (hok : ∀ i, env.batchOk i = true) :
    ∀ m k : Nat, k + m = totalBatchesOf docs.length →
      ((List.range' k m).map (batchDelta env docs)).sum = docs.length - 50 * k := by
  intro m
  induction m with
  | zero =>
    intro k hk
    simp only [totalBatchesOf] at hk
    simp
    omega
  | succ m ih =>
    intro k hk
    have hstep : List.range' k (m + 1) = k :: List.range' (k + 1) m := rfl
    rw [hstep]
    simp only [List.map_cons, List.sum_cons]
    rw [ih (k + 1) (by omega)]
    simp only [batchDelta, hok k, if_pos, batchSlice_length]
    simp only [totalBatchesOf] at hk
    omega

theorem syncLoopRun_processed_allOk (env : SyncEnv) (docs : List Doc)
    (hok : ∀ i, env.batchOk i = true) :
    (syncLoopRun env docs).processedCount = docs.length := by
  rw [syncLoopRun, syncBatchLoop_processed, List.range_eq_range']
  simpa using range'_batchDelta_sum env docs hok (totalBatchesOf docs.length) 0 (by omega)

/-! ## Claims about the processed-documents count (C1) -/

/-- Environment in which the single batch upsert fails. -/
def c1Env : SyncEnv :=
  { writeOk := true
    writeErrMsg := ""
    loadResult := Except.ok [⟨"row1"⟩]
    testEmbedOk := true
    testEmbedErrMsg := ""
    batchOk := fun _ => false
    batchErrMsg := fun _ => "upsert failed" }

/-- Counterexample to claim C1 as stated: on a valid one-row CSV whose only
batch upsert fails, `sync` still answers 200 but reports
`processedDocuments = 0` while `totalDocuments = 1`, so the processed
count does not equal the number of parsed rows. -/
theorem c1_counterexample :
    (sync c1Env (some ⟨"text/csv", "data.csv"⟩)).1.processedTotal = some (0, 1) ∧
    (0 : Nat) ≠ 1 := by
  constructor
  · rfl
  · decide

/-- Claim C1 as amended: for every valid CSV upload in which every batch
upsert succeeds, the accumulated `processedDocuments` equals
`totalDocuments`, the number of documents parsed from the CSV — for any
number of rows including zero. -/
theorem c1_amended (env : SyncEnv) (f : SyncFile) (docs : List Doc)
    (hcsv : f.mimetype = "text/csv" ∨ jsEndsWith f.originalname ".csv" = true)
    (hw : env.writeOk = true) (hl : env.loadResult = Except.ok docs)
    (he : env.testEmbedOk = true) (hok : ∀ i, env.batchOk i = true) :
    (sync env (some f)).1.processedTotal = some (docs.length, docs.length) := by
  have hcond : ((f.mimetype != "text/csv") && !(jsEndsWith f.originalname ".csv")) = false := by
    rcases hcsv with h | h <;> simp [h]
  cases docs with
  | nil =>
    simp [sync, hcond, hw, hl, he, SyncOutcome.processedTotal,
      syncLoopRun_processed_allOk _ _ hok]
  | cons d rest =>
    simp [sync, hcond, hw, hl, he, SyncOutcome.processedTotal,
      syncLoopRun_processed_allOk _ _ hok]

/-- Environment for the C1 witness: two rows, every upsert succeeds. -/
def c1WitnessEnv : SyncEnv :=
  { writeOk := true
    writeErrMsg := ""
    loadResult := Except.ok [⟨"row1"⟩, ⟨"row2"⟩]
    testEmbedOk := true
    testEmbedErrMsg := ""
    batchOk := fun _ => true
    batchErrMsg := fun _ => "" }

/-- Witness for the amended C1 on a concrete two-row CSV. -/
theorem c1_amended_witness :
    (sync c1WitnessEnv (some ⟨"text/csv", "t.csv"⟩)).1.processedTotal = some (2, 2) :=
  c1_amended c1WitnessEnv ⟨"text/csv", "t.csv"⟩ [⟨"row1"⟩, ⟨"row2"⟩]
    (Or.inl rfl) rfl rfl rfl (fun _ => rfl)

/-! ## Claims about the shape of the batch loop (C6) -/

theorem batchTrace_countP (docs : List Doc) (total i : Nat) :
    (batchTrace docs total i).countP isSleepEvent = if i < total - 1 then 1 else 0 := by
  by_cases h : i < total - 1 <;> simp [batchTrace, h, List.countP_cons, isSleepEvent]

theorem sum_map_one (l : List Nat) (f : Nat → Nat) (h : ∀ x ∈ l, f x = 1) :
    (l.map f).sum = l.length := by
  induction l with
  | nil => rfl
  | cons a rest ih =>
    simp only [List.map_cons, List.sum_cons, List.length_cons, h a (by simp)]
    rw [ih (fun x hx => h x (by simp [hx]))]
    omega

theorem sum_ite_lt (t : Nat) :
    ((List.range t).map (fun i => if i < t - 1 then (1 : Nat) else 0)).sum = t - 1 := by
  cases t with
  | zero => rfl
  | succ s =>
    have hfun : (fun i => if i < s + 1 - 1 then (1 : Nat) else 0) =
        (fun i => if i < s then (1 : Nat) else 0) := by
      simp
    rw [List.range_succ, List.map_append, List.sum_append, hfun]
    have h1 : ((List.range s).map (fun i => if i < s then (1 : Nat) else 0)).sum = s := by
      have hs := sum_map_one (List.range s) (fun i => if i < s then (1 : Nat) else 0)
        (fun x hx => by simp [List.mem_range.mp hx])
      simpa using hs
    simp [h1]

/-- Claim C6: the batch loop of `sync` runs exactly `ceil(n / 50)` batches;
the `results` entry of batch `i` records batch number `i + 1`, the slice
bounds `i * 50` to `min(i * 50 + 50, n) - 1`, a success entry with
`documentsProcessed` equal to the batch size when the upsert succeeds and
an error entry with `documentsProcessed = 0` (the loop continuing) when it
fails; batch `i` upserts exactly the documents at indices
`i * 50, …, min((i + 1) * 50, n) - 1`; and a 2000 ms sleep happens after
every batch except the last. -/
theorem c6_batching (env : SyncEnv) (docs : List Doc) :
    (syncLoopRun env docs).results.length = totalBatchesOf docs.length ∧
    (∀ i, i < totalBatchesOf docs.length →
      (syncLoopRun env docs).results[i]? = some
        { batchNumber := i + 1
          documentsInBatch := min (i * 50 + 50) docs.length - i * 50
          documentsProcessed :=
            if env.batchOk i then min (i * 50 + 50) docs.length - i * 50 else 0
          startIndex := i * 50
          endIndex := min (i * 50 + 50) docs.length - 1
          status := if env.batchOk i then "success" else "error"
          error := if env.batchOk i then none else some (env.batchErrMsg i) }) ∧
    (∀ i, i < totalBatchesOf docs.length →
      Event.addDocuments ((docs.drop (i * 50)).take (min (i * 50 + 50) docs.length - i * 50))
        ∈ (syncLoopRun env docs).trace) ∧
    (syncLoopRun env docs).trace.countP isSleepEvent = totalBatchesOf docs.length - 1 ∧
    (1 ≤ totalBatchesOf docs.length →
      (syncLoopRun env docs).trace.getLast? =
        some (Event.addDocuments (batchSlice docs (totalBatchesOf docs.length - 1)))) := by
  refine ⟨?_, ?_, ?_, ?_, ?_⟩
  · rw [syncLoopRun, syncBatchLoop_results]
    simp
  · intro i hi
    rw [syncLoopRun, syncBatchLoop_results]
    rw [List.getElem?_map, List.getElem?_range hi]
    by_cases hb : env.batchOk i <;>
      simp [batchEntry, hb, batchSlice_length]
  · intro i hi
    rw [syncLoopRun, syncBatchLoop_trace]
    refine List.mem_flatten.mpr ⟨batchTrace docs (totalBatchesOf docs.length) i,
      List.mem_map_of_mem _ (List.mem_range.mpr hi), ?_⟩
    simp [batchTrace, batchSlice]
  · rw [syncLoopRun, syncBatchLoop_trace]
    rw [List.countP_flatten, List.map_map]
    have hcomp : (List.countP isSleepEvent ∘ batchTrace docs (totalBatchesOf docs.length)) =
        (fun i => if i < totalBatchesOf docs.length - 1 then (1 : Nat) else 0) := by
      funext i
      exact batchTrace_countP docs (totalBatchesOf docs.length) i
    rw [hcomp, sum_ite_lt]
  · intro h1
    rw [syncLoopRun, syncBatchLoop_trace]
    obtain ⟨s, hT⟩ : ∃ s, totalBatchesOf docs.length = s + 1 :=
      ⟨totalBatchesOf docs.length - 1, by omega⟩
    rw [hT]
    rw [List.range_succ, List.map_append, List.flatten_append]
    have hlast : batchTrace docs (s + 1) s = [Event.addDocuments (batchSlice docs s)] := by
      simp [batchTrace]
    simp only [List.map_cons, List.map_nil, List.flatten_cons, List.flatten_nil,
      List.append_nil, hlast]
    rw [List.getLast?_concat]
    simp

/-- Environment for the C6 witness: one document, successful upsert. -/
def c6WitnessEnv : SyncEnv :=
  { writeOk := true
    writeErrMsg := ""
    loadResult := Except.ok [⟨"row"⟩]
    testEmbedOk := true
    testEmbedErrMsg := ""
    batchOk := fun _ => true
    batchErrMsg := fun _ => "" }

/-- Witness for C6 on a one-document list: one batch, entry recorded, no
sleep. -/
theorem c6_witness :
    (syncLoopRun c6WitnessEnv [⟨"row"⟩]).results.length = 1 ∧
    (syncLoopRun c6WitnessEnv [⟨"row"⟩]).trace.countP isSleepEvent = 0 :=
  ⟨(c6_batching c6WitnessEnv [⟨"row"⟩]).1, (c6_batching c6WitnessEnv [⟨"row"⟩]).2.2.2.1⟩

end AiAgent
